import Mathlib

/-!
# EyeOnWater reconciliation core: shallow embedding

Shallow embedding of the polling/update-coordination and historical-data
reconciliation logic of the `eyeonwater` Home Assistant integration
(`custom_components/eyeonwater/`: `__init__.py`, `coordinator.py`,
`sensor.py`, `binary_sensor.py`, `const.py`).

Timestamps are modelled as `Nat` (the code uses timezone-aware datetimes and
compares them with `>` only); readings are modelled as `Int` (the code uses
floats, but no claim depends on reading arithmetic). External collaborators
(the pyonwater client, the Home Assistant `DataUpdateCoordinator`, the
recorder statistics store) appear as explicit inputs and outputs: a fetch is
an `Except` value supplied to the cycle, a statistics submission is recorded
in a `submissions` list.
-/

/-- One historical usage sample: an immutable (timestamp, reading) pair
(`pyonwater.DataPoint`). -/
structure DataPoint where
  dt : Nat
  reading : Int
  deriving DecidableEq

/-- Modelled from the spec: `filter_newer_data` lives in
`statistic_helper.py`, which is not under `src/` (only its caller
`sensor.py` is). Spec 4.1: with no cutoff it returns the full input
sequence unchanged; with a cutoff it returns exactly the subsequence with
timestamp strictly greater than the cutoff, preserving input order. -/
def filter_newer_data (points : List DataPoint) (cutoff : Option Nat) :
    List DataPoint :=
  match cutoff with
  | none => points
  | some c => points.filter (fun p => c < p.dt)

/-- Errors raised by the pyonwater client operations
(`EyeOnWaterAPIError`, `EyeOnWaterAuthError`). -/
inductive FetchError where
  | apiError
  | authError
  deriving DecidableEq

/-- `homeassistant.helpers.update_coordinator.UpdateFailed`, as raised by
`EyeOnWaterData.read_meters` and `EyeOnWaterData.import_historical_data`. -/
inductive CycleError where
  | updateFailed (e : FetchError)
  deriving DecidableEq

/-- The meter fields the reconciliation logic reads (`pyonwater.Meter`):
`reading` is set by `read_meter_info`, `last_historical_data` by
`read_historical_data`. -/
structure Meter where
  meter_id : String
  meter_uuid : String
  reading : Option DataPoint
  last_historical_data : List DataPoint
  deriving DecidableEq

/-- The outcome of one polling cycle's two fetches for one meter, standing
for the remote API: `info` is the result of `meter.read_meter_info`,
`history` the result of `meter.read_historical_data`. -/
structure MeterFetch where
  info : Except FetchError DataPoint
  history : Except FetchError (List DataPoint)

/-- The first error among a meter's two fetch tasks, if any. -/
def MeterFetch.firstError (f : MeterFetch) : Option FetchError :=
  match f.info with
  | .error e => some e
  | .ok _ =>
    match f.history with
    | .error e => some e
    | .ok _ => none

/-- In-place mutation performed by a meter's fetch tasks: each task that
succeeded has updated its field of the meter object (under `asyncio.gather`
a failing task does not undo the sibling tasks that completed). -/
def applyFetch (m : Meter) (f : MeterFetch) : Meter :=
  { m with
    reading := match f.info with | .ok d => some d | .error _ => m.reading,
    last_historical_data :=
      match f.history with | .ok h => h | .error _ => m.last_historical_data }

/-- `EyeOnWaterData.read_meters` (coordinator.py, lines 38-52): gathers the
`read_meter_info` and `read_historical_data` tasks of every meter; if any
task raises `EyeOnWaterAPIError` or `EyeOnWaterAuthError`, re-raises it as
`UpdateFailed`; otherwise returns the (updated) meter list. -/
def read_meters (meters : List Meter) (fetches : List MeterFetch) :
    Except CycleError (List Meter) :=
  match fetches.findSome? MeterFetch.firstError with
  | some e => .error (.updateFailed e)
  | none => .ok (List.zipWith applyFetch meters fetches)

/-- The coordinator state consumers see after one refresh. Models the host
framework contract (spec 6): `DataUpdateCoordinator` runs the update method
(`async_update_data`, which awaits `read_meters`), sets
`last_update_success` to whether it raised `UpdateFailed`, then notifies
listeners. Meter objects mutated by fetch tasks that completed stay
mutated even when the cycle fails. -/
structure CoordinatorView where
  last_update_success : Bool
  meters : List Meter

/-- One coordinator refresh over the given per-meter fetch outcomes. -/
def coordinator_refresh (meters : List Meter) (fetches : List MeterFetch) :
    CoordinatorView :=
  match read_meters meters fetches with
  | .ok ms => { last_update_success := true, meters := ms }
  | .error _ =>
    { last_update_success := false, meters := List.zipWith applyFetch meters fetches }

/-- `NoDataFound` (sensor.py, line 61), raised by
`EyeOnWaterStatistic._state_update` when the meter has no recent readings. -/
inductive StatError where
  | noDataFound
  deriving DecidableEq

/-- The mutable state of one `EyeOnWaterStatistic` entity (sensor.py):
`_available`, `_state`, `_last_imported_time` (the per-meter watermark),
`_last_historical_data`, plus a record of every batch of data points handed
to `async_import_statistics` (the external statistics store). -/
structure StatisticSensorState where
  available : Bool
  state : Option DataPoint
  last_imported_time : Option Nat
  last_historical_data : List DataPoint
  submissions : List (List DataPoint)
  deriving DecidableEq

/-- `EyeOnWaterStatistic.import_historical_data` (sensor.py, lines 137-147):
returns early when `_last_historical_data` is empty, otherwise converts the
points, builds the metadata and calls `async_import_statistics`; the call is
recorded as one submitted batch (the conversion and metadata building live
in `statistic_helper.py`, outside `src/`, and per spec 4.4 they preserve the
batch of filtered points). -/
def StatisticSensorState.import_historical_data (s : StatisticSensorState) :
    StatisticSensorState :=
  if s.last_historical_data = [] then s
  else { s with submissions := s.submissions ++ [s.last_historical_data] }

/-- `EyeOnWaterStatistic._state_update` (sensor.py, lines 109-124), with the
coordinator flag and the meter fields it reads passed explicitly:
sets `_available` from `last_update_success`; when available, copies the
meter reading, raises `NoDataFound` on an empty fetched history, filters the
history against the watermark, and when the filtered result is non-empty
submits it and advances the watermark to the last filtered point's
timestamp. The raise is modelled as a `some` error alongside the mutations
that had already happened. -/
def statistic_state_update (last_update_success : Bool)
    (meterReading : Option DataPoint) (meterHistory : List DataPoint)
    (s : StatisticSensorState) : StatisticSensorState × Option StatError :=
  let s1 := { s with available := last_update_success }
  if last_update_success then
    let s2 := { s1 with state := meterReading }
    if meterHistory = [] then (s2, some .noDataFound)
    else
      let s3 := { s2 with
        last_historical_data := filter_newer_data meterHistory s.last_imported_time }
      if s3.last_historical_data = [] then (s3, none)
      else
        let s4 := s3.import_historical_data
        ({ s4 with
           last_imported_time :=
             some (s3.last_historical_data.getLastD ⟨0, 0⟩).dt }, none)
  else (s1, none)

/-- The mutable state of one `EyeOnWaterSensor` entity (sensor.py):
`_available` and `_state`. -/
structure SensorState where
  available : Bool
  state : Option DataPoint
  deriving DecidableEq

/-- `EyeOnWaterSensor._state_update` (sensor.py, lines 224-230): sets
`_available` from the coordinator's `last_update_success` and copies the
meter reading only when available. -/
def sensor_state_update (last_update_success : Bool)
    (meterReading : Option DataPoint) (s : SensorState) : SensorState :=
  let s1 := { s with available := last_update_success }
  if last_update_success then { s1 with state := meterReading } else s1

/-- The mutable state of one `EyeOnWaterBinarySensor` entity
(binary_sensor.py): `_attr_is_on`. -/
structure BinarySensorState where
  is_on : Bool
  deriving DecidableEq

/-- `EyeOnWaterBinarySensor._handle_coordinator_update` (binary_sensor.py,
lines 118-122): copies the meter flag into `_attr_is_on` unconditionally. -/
def binary_handle_coordinator_update (flag : Bool) (s : BinarySensorState) :
    BinarySensorState :=
  { s with is_on := flag }

/-- Host framework contract (spec 6-7, external collaborator): an entity
deriving from `CoordinatorEntity` that does not override `available`
reports available exactly when the coordinator's last update succeeded.
`EyeOnWaterBinarySensor` and `EyeOnWaterTempSensor` rely on this default. -/
def coordinator_entity_available (last_update_success : Bool) : Bool :=
  last_update_success

/-- `EyeOnWaterData.import_historical_data` (coordinator.py, lines 54-65),
the bulk historical-import path: for each meter in order, fetches `days` of
history and submits the whole fetched list (no watermark filtering); an
`EyeOnWaterAPIError` or `EyeOnWaterAuthError` for one meter is logged and
re-raised as `UpdateFailed`, aborting the loop. The input is the per-meter
fetch outcome list; the output is the list of submitted batches together
with the raised error, if any. -/
def bulk_import_historical_data :
    List (Except FetchError (List DataPoint)) →
      List (List DataPoint) × Option CycleError
  | [] => ([], none)
  | .ok d :: rest =>
    let r := bulk_import_historical_data rest
    (d :: r.1, r.2)
  | .error e :: _ => ([], some (.updateFailed e))

/-- The outcome of `client.authenticate()` at setup time (spec 6):
success, `EyeOnWaterAuthError`, or `asyncio.TimeoutError`. -/
inductive AuthResult where
  | ok
  | authFailed
  | timedOut
  deriving DecidableEq

/-- The outcome of `async_setup_entry` as seen by the platform:
`loaded` (returned True), `notLoaded` (returned False),
`retryLater` (raised `ConfigEntryNotReady`), or `setupError`
(an exception such as `UpdateFailed` escaped setup). -/
inductive SetupOutcome where
  | loaded
  | notLoaded
  | retryLater
  | setupError
  deriving DecidableEq

/-- `async_setup_entry` (`__init__.py`, lines 94-132): authenticates; on
`EyeOnWaterAuthError` returns False, on `asyncio.TimeoutError` raises
`ConfigEntryNotReady`; then `EyeOnWaterData.setup` fetches the meters,
re-raising a fetch error as `UpdateFailed` (which escapes setup); otherwise
the coordinator is created and the entry loads. -/
def async_setup_entry (auth : AuthResult)
    (fetchMeters : Except FetchError (List Meter)) : SetupOutcome :=
  match auth with
  | .authFailed => .notLoaded
  | .timedOut => .retryLater
  | .ok =>
    match fetchMeters with
    | .error _ => .setupError
    | .ok _ => .loaded

/-! ## Helper lemmas -/

/-- If some element of the list maps to `some`, `findSome?` finds something. -/
theorem findSome?_isSome_of_mem {α β : Type} (g : α → Option β) (l : List α)
    (a : α) (ha : a ∈ l) (b : β) (hb : g a = some b) :
    ∃ b2, l.findSome? g = some b2 := by
  induction l with
  | nil => cases ha
  | cons x xs ih =>
    rw [List.findSome?_cons]
    cases hx : g x with
    | some bx => exact ⟨bx, rfl⟩
    | none =>
      rcases List.mem_cons.mp ha with h | h
      · rw [h, hx] at hb; cases hb
      · exact ih h

/-- A cycle containing a failed fetch task makes `read_meters` raise
`UpdateFailed`. -/
theorem read_meters_error_of_fetch_error (meters : List Meter)
    (fetches : List MeterFetch) (f : MeterFetch) (hf : f ∈ fetches)
    (e : FetchError) (he : f.firstError = some e) :
    ∃ e2, read_meters meters fetches = .error (.updateFailed e2) := by
  obtain ⟨b2, hb2⟩ :=
    findSome?_isSome_of_mem MeterFetch.firstError fetches f hf e he
  exact ⟨b2, by simp [read_meters, hb2]⟩

/-- A cycle containing a failed fetch task ends with
`last_update_success = false`. -/
theorem coordinator_refresh_failed (meters : List Meter)
    (fetches : List MeterFetch) (f : MeterFetch) (hf : f ∈ fetches)
    (e : FetchError) (he : f.firstError = some e) :
    (coordinator_refresh meters fetches).last_update_success = false := by
  obtain ⟨e2, h⟩ := read_meters_error_of_fetch_error meters fetches f hf e he
  simp [coordinator_refresh, h]

/-- `getLastD` of a non-empty list is an element of the list. -/
theorem mem_getLastD (l : List DataPoint) (d : DataPoint) (h : l ≠ []) :
    l.getLastD d ∈ l := by
  rw [List.getLastD_eq_getLast?, List.getLast?_eq_getLast l h]
  exact List.getLast_mem h

/-- In a list sorted by timestamp, every element's timestamp is bounded by
the last element's. -/
theorem dt_le_getLastD_of_sorted (l : List DataPoint) (d : DataPoint)
    (hs : l.Pairwise (fun a b => a.dt ≤ b.dt)) (p : DataPoint) (hp : p ∈ l) :
    p.dt ≤ (l.getLastD d).dt := by
  induction l generalizing d with
  | nil => cases hp
  | cons x xs ih =>
    rw [List.getLastD_cons]
    rcases List.mem_cons.mp hp with h | h
    · rw [h]
      by_cases hxs : xs = []
      · rw [hxs]; exact Nat.le_refl _
      · exact (List.pairwise_cons.mp hs).1 (xs.getLastD x) (mem_getLastD xs x hxs)
    · exact ih x (List.pairwise_cons.mp hs).2 h

/-- Every point in the filtered output is strictly newer than the cutoff. -/
theorem dt_lt_of_mem_filter_newer (hist : List DataPoint) (c : Nat)
    (p : DataPoint) (hp : p ∈ filter_newer_data hist (some c)) : c < p.dt := by
  simp [filter_newer_data, List.mem_filter] at hp
  exact hp.2

/-- If every point is at or before the cutoff, the filter returns nothing. -/
theorem filter_newer_data_eq_nil (hist : List DataPoint) (w : Nat)
    (h : ∀ p ∈ hist, p.dt ≤ w) : filter_newer_data hist (some w) = [] := by
  rw [filter_newer_data, List.filter_eq_nil_iff]
  intro p hp
  simpa using Nat.not_lt.mpr (h p hp)

/-- Characterization of `EyeOnWaterStatistic._state_update` on a successful
cycle with non-empty fetched history and an empty filtered result: the state
and `_last_historical_data` fields are refreshed, the watermark and the
submission record are untouched, no error is raised. -/
theorem statistic_state_update_of_filter_nil (r : Option DataPoint)
    (hist : List DataPoint) (s : StatisticSensorState) (hne : hist ≠ [])
    (hfil : filter_newer_data hist s.last_imported_time = []) :
    statistic_state_update true r hist s =
      ({ s with
         available := true,
         state := r,
         last_historical_data := [] },
        none) := by
  simp [statistic_state_update, hne, hfil]

/-- Characterization of `EyeOnWaterStatistic._state_update` on a successful
cycle with a non-empty filtered result: the filtered batch is submitted and
the watermark advances to its last point's timestamp; no error is raised. -/
theorem statistic_state_update_of_filter_ne_nil (r : Option DataPoint)
    (hist : List DataPoint) (s : StatisticSensorState) (hne : hist ≠ [])
    (hfil : filter_newer_data hist s.last_imported_time ≠ []) :
    statistic_state_update true r hist s =
      ({ s with
         available := true,
         state := r,
         last_historical_data := filter_newer_data hist s.last_imported_time,
         submissions :=
           s.submissions ++ [filter_newer_data hist s.last_imported_time],
         last_imported_time :=
           some ((filter_newer_data hist s.last_imported_time).getLastD
             ⟨0, 0⟩).dt },
        none) := by
  simp [statistic_state_update, StatisticSensorState.import_historical_data,
    hne, hfil]

/-! ## Claims -/

/-- C1: `filter_newer_data` with no cutoff returns the input sequence
unchanged; with a cutoff it returns exactly the subsequence
(order-preserving sublist) of points with timestamp strictly greater than
the cutoff; on empty input it returns empty. -/
theorem C1_filter_newer_data_spec (P : List DataPoint) (c : Nat)
    (cutoff : Option Nat) :
    filter_newer_data P none = P ∧
    (filter_newer_data P (some c)).Sublist P ∧
    (∀ p, p ∈ filter_newer_data P (some c) ↔ p ∈ P ∧ c < p.dt) ∧
    filter_newer_data [] cutoff = [] := by
  refine ⟨rfl, List.filter_sublist P, fun p => ?_, ?_⟩
  · simp [filter_newer_data, List.mem_filter]
  · cases cutoff <;> rfl

/-- Witness for C1 at a concrete input: with cutoff 2, the point at
timestamp 5 is kept. -/
theorem C1_filter_newer_data_spec_witness :
    (⟨5, 3⟩ : DataPoint) ∈ filter_newer_data [⟨1, 2⟩, ⟨5, 3⟩] (some 2) :=
  ((C1_filter_newer_data_spec [⟨1, 2⟩, ⟨5, 3⟩] 2 (some 2)).2.2.1
    ⟨5, 3⟩).mpr (by decide)

/-- C6: on a successful cycle whose fetched historical list is empty, the
statistic entity's update raises `NoDataFound` (the condition is not
silently ignored) and leaves the watermark and the submission record
unchanged. -/
theorem C6_empty_history_raises_no_data (r : Option DataPoint)
    (st : StatisticSensorState) :
    (statistic_state_update true r [] st).2 = some StatError.noDataFound ∧
    (statistic_state_update true r [] st).1.last_imported_time
      = st.last_imported_time ∧
    (statistic_state_update true r [] st).1.submissions = st.submissions := by
  simp [statistic_state_update]

/-- C10: at setup time a network timeout from `authenticate()` raises
`ConfigEntryNotReady` (the platform retries setup later), whereas a
credential rejection makes `async_setup_entry` return False (the entry does
not load); the two outcomes are distinct. -/
theorem C10_setup_timeout_retries (fm : Except FetchError (List Meter)) :
    async_setup_entry AuthResult.timedOut fm = SetupOutcome.retryLater ∧
    async_setup_entry AuthResult.authFailed fm = SetupOutcome.notLoaded ∧
    SetupOutcome.retryLater ≠ SetupOutcome.notLoaded := by
  exact ⟨rfl, rfl, by decide⟩

/-- Witness for C10 at a concrete input. -/
theorem C10_setup_timeout_retries_witness :
    async_setup_entry AuthResult.timedOut (Except.ok [])
      = SetupOutcome.retryLater :=
  (C10_setup_timeout_retries (Except.ok [])).1

/-- C7: an authentication failure at setup time aborts integration startup
(`async_setup_entry` returns False, the entry is not loaded), while an
authentication error during a later polling cycle only fails that cycle:
`read_meters` raises `UpdateFailed` and the coordinator reports
`last_update_success = false`, leaving the retry to the next scheduled
tick. -/
theorem C7_auth_setup_vs_cycle (fm : Except FetchError (List Meter))
    (meters : List Meter) (fetches : List MeterFetch) (f : MeterFetch)
    (hf : f ∈ fetches) (he : f.firstError = some FetchError.authError) :
    async_setup_entry AuthResult.authFailed fm = SetupOutcome.notLoaded ∧
    (∃ e2, read_meters meters fetches
      = Except.error (CycleError.updateFailed e2)) ∧
    (coordinator_refresh meters fetches).last_update_success = false :=
  ⟨rfl,
    read_meters_error_of_fetch_error meters fetches f hf _ he,
    coordinator_refresh_failed meters fetches f hf _ he⟩

/-- Witness for C7 at a concrete input: a single meter whose info fetch
fails with an auth error. -/
theorem C7_auth_setup_vs_cycle_witness :
    (coordinator_refresh []
      [⟨Except.error FetchError.authError, Except.ok []⟩]).last_update_success
      = false :=
  (C7_auth_setup_vs_cycle (Except.ok []) []
    [⟨Except.error FetchError.authError, Except.ok []⟩]
    ⟨Except.error FetchError.authError, Except.ok []⟩
    (List.mem_singleton.mpr rfl) rfl).2.2

/-- C2: if any per-meter fetch in a polling cycle fails with an API or
authentication error, `read_meters` raises `UpdateFailed`, the coordinator
marks the cycle failed, and the consumer-visible entity state of every
meter is not updated from this cycle: the sensor entity keeps its previous
state, and the statistic entity keeps its previous state, watermark and
submission record. -/
theorem C2_fetch_error_fails_cycle (meters : List Meter)
    (fetches : List MeterFetch) (f : MeterFetch) (hf : f ∈ fetches)
    (e : FetchError) (he : f.firstError = some e) (r : Option DataPoint)
    (hist : List DataPoint) (s : SensorState) (st : StatisticSensorState) :
    (∃ e2, read_meters meters fetches
      = Except.error (CycleError.updateFailed e2)) ∧
    (coordinator_refresh meters fetches).last_update_success = false ∧
    (sensor_state_update
        (coordinator_refresh meters fetches).last_update_success r s).state
      = s.state ∧
    (statistic_state_update
        (coordinator_refresh meters fetches).last_update_success r hist
        st).1.state = st.state ∧
    (statistic_state_update
        (coordinator_refresh meters fetches).last_update_success r hist
        st).1.last_imported_time = st.last_imported_time ∧
    (statistic_state_update
        (coordinator_refresh meters fetches).last_update_success r hist
        st).1.submissions = st.submissions := by
  have hfail := coordinator_refresh_failed meters fetches f hf e he
  refine ⟨read_meters_error_of_fetch_error meters fetches f hf e he,
    hfail, ?_, ?_, ?_, ?_⟩ <;>
    rw [hfail] <;> simp [sensor_state_update, statistic_state_update]

/-- Witness for C2 at a concrete input: one meter whose history fetch fails
with an API error; the statistic entity's watermark stays at 4. -/
theorem C2_fetch_error_fails_cycle_witness :
    (statistic_state_update
      (coordinator_refresh []
        [⟨Except.ok ⟨1, 1⟩, Except.error FetchError.apiError⟩]).last_update_success
      none [] ⟨true, none, some 4, [], []⟩).1.last_imported_time = some 4 :=
  (C2_fetch_error_fails_cycle []
    [⟨Except.ok ⟨1, 1⟩, Except.error FetchError.apiError⟩]
    ⟨Except.ok ⟨1, 1⟩, Except.error FetchError.apiError⟩
    (List.mem_singleton.mpr rfl) FetchError.apiError rfl none []
    ⟨true, none⟩ ⟨true, none, some 4, [], []⟩).2.2.2.2.1

/-- C8: after a cycle in which some fetch failed, every dependent entity of
every meter reports unavailable: `EyeOnWaterSensor` and
`EyeOnWaterStatistic` set `_available` from `last_update_success`, and
`EyeOnWaterBinarySensor` and `EyeOnWaterTempSensor` report the
`CoordinatorEntity` default, which is `last_update_success`. -/
theorem C8_failed_cycle_all_unavailable (meters : List Meter)
    (fetches : List MeterFetch) (f : MeterFetch) (hf : f ∈ fetches)
    (e : FetchError) (he : f.firstError = some e) (r : Option DataPoint)
    (hist : List DataPoint) (s : SensorState) (st : StatisticSensorState) :
    (sensor_state_update
        (coordinator_refresh meters fetches).last_update_success r
        s).available = false ∧
    (statistic_state_update
        (coordinator_refresh meters fetches).last_update_success r hist
        st).1.available = false ∧
    coordinator_entity_available
        (coordinator_refresh meters fetches).last_update_success = false := by
  have hfail := coordinator_refresh_failed meters fetches f hf e he
  refine ⟨?_, ?_, ?_⟩ <;> rw [hfail] <;>
    simp [sensor_state_update, statistic_state_update,
      coordinator_entity_available]

/-- Witness for C8 at a concrete input: one meter whose info fetch fails;
the sensor entity reports unavailable. -/
theorem C8_failed_cycle_all_unavailable_witness :
    (sensor_state_update
      (coordinator_refresh []
        [⟨Except.error FetchError.apiError, Except.ok []⟩]).last_update_success
      none ⟨true, some ⟨1, 1⟩⟩).available = false :=
  (C8_failed_cycle_all_unavailable []
    [⟨Except.error FetchError.apiError, Except.ok []⟩]
    ⟨Except.error FetchError.apiError, Except.ok []⟩
    (List.mem_singleton.mpr rfl) FetchError.apiError rfl none []
    ⟨true, some ⟨1, 1⟩⟩ ⟨true, none, none, [], []⟩).1

/-- C4: the statistic entity's watermark advances exactly when the cycle
succeeded, the fetched history is non-empty and the filtered result is
non-empty, and in that case the filtered batch is submitted and the
watermark becomes the timestamp of the last filtered point (strictly
changing); in every other case the watermark and the submission record are
untouched; and across any single update the watermark never decreases. -/
theorem C4_watermark_advance (success : Bool) (r : Option DataPoint)
    (hist : List DataPoint) (s : StatisticSensorState) :
    ((success = true ∧ hist ≠ [] ∧
        filter_newer_data hist s.last_imported_time ≠ []) →
      ((statistic_state_update success r hist s).1.last_imported_time
          = some ((filter_newer_data hist s.last_imported_time).getLastD
              ⟨0, 0⟩).dt ∧
        (statistic_state_update success r hist s).1.submissions
          = s.submissions ++ [filter_newer_data hist s.last_imported_time] ∧
        (statistic_state_update success r hist s).1.last_imported_time
          ≠ s.last_imported_time)) ∧
    (¬(success = true ∧ hist ≠ [] ∧
        filter_newer_data hist s.last_imported_time ≠ []) →
      ((statistic_state_update success r hist s).1.last_imported_time
          = s.last_imported_time ∧
        (statistic_state_update success r hist s).1.submissions
          = s.submissions)) ∧
    (∀ c c2, s.last_imported_time = some c →
      (statistic_state_update success r hist s).1.last_imported_time
        = some c2 → c ≤ c2) := by
  refine ⟨?_, ?_, ?_⟩
  · rintro ⟨hs, hne, hfil⟩
    subst hs
    rw [statistic_state_update_of_filter_ne_nil r hist s hne hfil]
    refine ⟨rfl, rfl, ?_⟩
    cases hw : s.last_imported_time with
    | none => simp
    | some c =>
      intro hEq
      have hA := Option.some_inj.mp hEq
      have hmem := mem_getLastD (filter_newer_data hist (some c)) ⟨0, 0⟩
        (by rw [← hw]; exact hfil)
      have hlt := dt_lt_of_mem_filter_newer hist c _ hmem
      rw [hA] at hlt
      exact absurd hlt (Nat.lt_irrefl c)
  · intro hneg
    cases success with
    | false => simp [statistic_state_update]
    | true =>
      by_cases hne : hist = []
      · subst hne; simp [statistic_state_update]
      · have hfil : filter_newer_data hist s.last_imported_time = [] := by
          by_contra hc
          exact hneg ⟨rfl, hne, hc⟩
        rw [statistic_state_update_of_filter_nil r hist s hne hfil]
        exact ⟨rfl, rfl⟩
  · intro c c2 hc hc2
    cases success with
    | false => simp [statistic_state_update, hc] at hc2; omega
    | true =>
      by_cases hne : hist = []
      · subst hne
        simp [statistic_state_update, hc] at hc2
        omega
      · by_cases hfil : filter_newer_data hist s.last_imported_time = []
        · rw [statistic_state_update_of_filter_nil r hist s hne hfil] at hc2
          simp [hc] at hc2
          omega
        · rw [statistic_state_update_of_filter_ne_nil r hist s hne hfil]
            at hc2
          have hlt : c
              < ((filter_newer_data hist s.last_imported_time).getLastD
                  ⟨0, 0⟩).dt := by
            refine dt_lt_of_mem_filter_newer hist c _ ?_
            rw [← hc]
            exact mem_getLastD _ _ hfil
          simp only [Option.some_inj] at hc2
          omega

/-- Witness for C4 at a concrete input: watermark `some 1`, history with a
newer point at timestamp 2; the watermark advances to 2. -/
theorem C4_watermark_advance_witness :
    (statistic_state_update true none [⟨2, 5⟩]
      ⟨false, none, some 1, [], []⟩).1.last_imported_time = some 2 :=
  ((C4_watermark_advance true none [⟨2, 5⟩]
      ⟨false, none, some 1, [], []⟩).1 ⟨rfl, by decide, by decide⟩).1

/-- C9: applying the per-cycle reconciliation a second time with the same
fetched data (ordered by timestamp, as the data model requires) leaves the
watermark unchanged and adds no second submission to the statistics
store. -/
theorem C9_second_reconciliation_noop (r : Option DataPoint)
    (hist : List DataPoint) (s : StatisticSensorState)
    (hsorted : hist.Pairwise (fun a b => a.dt ≤ b.dt)) (hne : hist ≠ []) :
    (statistic_state_update true r hist
        (statistic_state_update true r hist s).1).1.last_imported_time
      = (statistic_state_update true r hist s).1.last_imported_time ∧
    (statistic_state_update true r hist
        (statistic_state_update true r hist s).1).1.submissions
      = (statistic_state_update true r hist s).1.submissions := by
  by_cases hfil : filter_newer_data hist s.last_imported_time = []
  · have h3 : filter_newer_data hist
        (statistic_state_update true r hist s).1.last_imported_time = [] := by
      rw [statistic_state_update_of_filter_nil r hist s hne hfil]
      exact hfil
    rw [statistic_state_update_of_filter_nil r hist
      (statistic_state_update true r hist s).1 hne h3]
    exact ⟨rfl, rfl⟩
  · have hallle : ∀ p ∈ hist, p.dt ≤
        ((filter_newer_data hist s.last_imported_time).getLastD ⟨0, 0⟩).dt := by
      intro p hp
      cases hw : s.last_imported_time with
      | none => exact dt_le_getLastD_of_sorted hist ⟨0, 0⟩ hsorted p hp
      | some c =>
        rw [hw] at hfil
        by_cases hpc : c < p.dt
        · have hpmem : p ∈ filter_newer_data hist (some c) := by
            simp [filter_newer_data, List.mem_filter]
            exact ⟨hp, hpc⟩
          exact dt_le_getLastD_of_sorted _ ⟨0, 0⟩
            (List.Pairwise.filter _ hsorted) p hpmem
        · have hpc2 : p.dt ≤ c := Nat.not_lt.mp hpc
          have hcw : c
              < ((filter_newer_data hist (some c)).getLastD ⟨0, 0⟩).dt :=
            dt_lt_of_mem_filter_newer hist c _ (mem_getLastD _ _ hfil)
          exact Nat.le_trans hpc2 (Nat.le_of_lt hcw)
    have h3 : filter_newer_data hist
        (statistic_state_update true r hist s).1.last_imported_time = [] := by
      rw [statistic_state_update_of_filter_ne_nil r hist s hne hfil]
      exact filter_newer_data_eq_nil hist _ hallle
    rw [statistic_state_update_of_filter_nil r hist
      (statistic_state_update true r hist s).1 hne h3]
    exact ⟨rfl, rfl⟩

/-- Witness for C9 at a concrete input: two points, first import takes
both and sets the watermark to 3; the second identical update leaves the
watermark where it was. -/
theorem C9_second_reconciliation_noop_witness :
    (statistic_state_update true none [⟨1, 2⟩, ⟨3, 4⟩]
        (statistic_state_update true none [⟨1, 2⟩, ⟨3, 4⟩]
          ⟨false, none, none, [], []⟩).1).1.last_imported_time
      = (statistic_state_update true none [⟨1, 2⟩, ⟨3, 4⟩]
          ⟨false, none, none, [], []⟩).1.last_imported_time :=
  (C9_second_reconciliation_noop none [⟨1, 2⟩, ⟨3, 4⟩]
    ⟨false, none, none, [], []⟩ (by decide) (by decide)).1

/-- The bulk historical-import path submits every successfully fetched
batch as-is when no meter's fetch fails. -/
theorem bulk_import_ok (ds : List (List DataPoint)) :
    bulk_import_historical_data (ds.map Except.ok) = (ds, none) := by
  induction ds with
  | nil => rfl
  | cons d t ih => simp [bulk_import_historical_data, ih]

/-- The bulk historical-import path aborts at the first failing meter: the
submissions are exactly the batches of the meters before it, and
`UpdateFailed` is raised. -/
theorem bulk_import_abort (pre : List (List DataPoint)) (e : FetchError)
    (rest : List (Except FetchError (List DataPoint))) :
    bulk_import_historical_data
        (pre.map Except.ok ++ Except.error e :: rest)
      = (pre, some (CycleError.updateFailed e)) := by
  induction pre with
  | nil => rfl
  | cons d t ih => simp [bulk_import_historical_data, ih]

/-- C3 counterexample: a meter whose statistic-entity watermark stands at
`some 10`, while the bulk historical-import path fetches a single point
with timestamp 5: the bulk path submits that point even though its
timestamp is at or before the watermark, because
`EyeOnWaterData.import_historical_data` performs no watermark filtering at
all. -/
theorem C3_counterexample :
    (StatisticSensorState.mk true none (some 10) [] []).last_imported_time
      = some 10 ∧
    (bulk_import_historical_data [Except.ok [DataPoint.mk 5 100]]).1
      = [[DataPoint.mk 5 100]] ∧
    (DataPoint.mk 5 100).dt ≤ 10 := by
  decide

/-- C3 amended: in the regular per-cycle path the reconciler submits
exactly the fetched points strictly newer than the watermark (none at or
before it, none newer skipped), but the bulk historical-import path submits
every fetched point unfiltered, regardless of any watermark. -/
theorem C3_amended_watermark_discipline (r : Option DataPoint)
    (hist : List DataPoint) (st : StatisticSensorState) (c : Nat)
    (hc : st.last_imported_time = some c) (hne : hist ≠ []) :
    ((filter_newer_data hist (some c) ≠ [] →
        (statistic_state_update true r hist st).1.submissions
          = st.submissions ++ [filter_newer_data hist (some c)]) ∧
      (filter_newer_data hist (some c) = [] →
        (statistic_state_update true r hist st).1.submissions
          = st.submissions) ∧
      (∀ p, p ∈ filter_newer_data hist (some c) ↔ p ∈ hist ∧ c < p.dt)) ∧
    (∀ ds : List (List DataPoint),
      bulk_import_historical_data (ds.map Except.ok) = (ds, none)) := by
  refine ⟨⟨?_, ?_, ?_⟩, bulk_import_ok⟩
  · intro hfil
    rw [statistic_state_update_of_filter_ne_nil r hist st hne
      (by rw [hc]; exact hfil)]
    rw [hc]
  · intro hfil
    rw [statistic_state_update_of_filter_nil r hist st hne
      (by rw [hc]; exact hfil)]
  · intro p
    simp [filter_newer_data, List.mem_filter]

/-- Witness for the amended C3 at a concrete input: watermark 4, history
with points at 3 and 7; exactly the point at 7 is submitted. -/
theorem C3_amended_watermark_discipline_witness :
    (statistic_state_update true none [⟨3, 1⟩, ⟨7, 2⟩]
      ⟨true, none, some 4, [], []⟩).1.submissions = [[⟨7, 2⟩]] :=
  ((C3_amended_watermark_discipline none [⟨3, 1⟩, ⟨7, 2⟩]
      ⟨true, none, some 4, [], []⟩ 4 rfl (by decide)).1.1 (by decide))

/-- C5 counterexample: with two meters in the bulk historical-import path,
the first meter's fetch failing with an API error aborts the whole bulk
import: `UpdateFailed` is raised and the second meter's batch (a point at
timestamp 1) is never submitted, so the error is not isolated to the
failing meter. -/
theorem C5_counterexample :
    bulk_import_historical_data
        [Except.error FetchError.apiError, Except.ok [DataPoint.mk 1 1]]
      = ([], some (CycleError.updateFailed FetchError.apiError)) ∧
    [DataPoint.mk 1 1] ∉
      (bulk_import_historical_data
        [Except.error FetchError.apiError, Except.ok [DataPoint.mk 1 1]]).1 := by
  decide

/-- C5 amended: in the bulk historical-import path a per-meter fetch error
is logged and re-raised as `UpdateFailed`, aborting the bulk import at that
meter: the meters before it have been submitted, the meters after it are
not processed; and in the regular per-cycle path a fetch error likewise
surfaces as a failed cycle. -/
theorem C5_amended_bulk_abort (pre : List (List DataPoint)) (e : FetchError)
    (rest : List (Except FetchError (List DataPoint)))
    (meters : List Meter) (fetches : List MeterFetch) (f : MeterFetch)
    (hf : f ∈ fetches) (he : f.firstError = some e) :
    bulk_import_historical_data
        (pre.map Except.ok ++ Except.error e :: rest)
      = (pre, some (CycleError.updateFailed e)) ∧
    (∃ e2, read_meters meters fetches
      = Except.error (CycleError.updateFailed e2)) ∧
    (coordinator_refresh meters fetches).last_update_success = false :=
  ⟨bulk_import_abort pre e rest,
    read_meters_error_of_fetch_error meters fetches f hf e he,
    coordinator_refresh_failed meters fetches f hf e he⟩

/-- Witness for the amended C5 at a concrete input: one successfully
fetched meter before the failing one; only its batch is submitted and the
error is raised. -/
theorem C5_amended_bulk_abort_witness :
    bulk_import_historical_data
        [Except.ok [DataPoint.mk 2 9], Except.error FetchError.authError]
      = ([[DataPoint.mk 2 9]],
          some (CycleError.updateFailed FetchError.authError)) :=
  (C5_amended_bulk_abort [[DataPoint.mk 2 9]] FetchError.authError [] []
    [⟨Except.error FetchError.authError, Except.ok []⟩]
    ⟨Except.error FetchError.authError, Except.ok []⟩
    (List.mem_singleton.mpr rfl) rfl).1
